import Mathlib

/-! # interactsh-client: the interaction reporting pipeline

A shallow embedding of `cmd/interactsh-client/main.go`: the polling callback
(protocol switch, filter flags, text and JSON rendering), `writeOutput`, and
the control flow of `main` up to the interrupt loop.  Effects on the outside
world (console, output file, client session, process exit) are recorded as a
trace of `Effect` values in program order.
-/

namespace Interactsh

/-! ## Library surface used by main.go -/

/-- Modelled from the spec: the civil fields of a Go `time.Time` value, which
is what `Format` reads.  The type lives in the Go standard library. -/
structure Time where
  year : Int
  month : Nat
  day : Nat
  hour : Nat
  minute : Nat
  second : Nat
  deriving DecidableEq, Repr

/-- Go's `time.appendInt`: an optional minus sign, then the decimal digits of
the absolute value, zero-padded on the left up to `width` digits. -/
def appendInt (x : Int) (width : Nat) : String :=
  let digits := Nat.toDigits 10 x.natAbs
  (if x < 0 then "-" else "") ++
    String.mk (List.replicate (width - digits.length) '0' ++ digits)

/-- Layout interpreter behind `Time.Format`, restricted to the layout elements
that occur in main.go (`2006`, `01`, `02`, `15`, `04`, `05`); every other
character of the layout is copied. -/
def formatGo (t : Time) : List Char → List Char
  | [] => []
  | '2' :: '0' :: '0' :: '6' :: r => (appendInt t.year 4).data ++ formatGo t r
  | '0' :: '1' :: r => (appendInt t.month 2).data ++ formatGo t r
  | '0' :: '2' :: r => (appendInt t.day 2).data ++ formatGo t r
  | '1' :: '5' :: r => (appendInt t.hour 2).data ++ formatGo t r
  | '0' :: '4' :: r => (appendInt t.minute 2).data ++ formatGo t r
  | '0' :: '5' :: r => (appendInt t.second 2).data ++ formatGo t r
  | c :: r => c :: formatGo t r

/-- Modelled from the spec: `time.Time.Format`, which renders the timestamp as
a calendar/time string according to `layout`. -/
def Time.Format (t : Time) (layout : String) : String :=
  String.mk (formatGo t layout.data)

/-- Modelled from the spec: `server.Interaction`, the record delivered to the
polling callback, with the fields the pipeline reads.  The declaration lives in
`pkg/server`. -/
structure Interaction where
  Protocol : String
  FullId : String
  QType : String
  RawRequest : String
  RawResponse : String
  RemoteAddress : String
  Timestamp : Time
  deriving DecidableEq, Repr

/-- An argument of `fmt.Sprintf`. -/
inductive Arg where
  | s (v : String)
  | d (v : Int)
  deriving DecidableEq, Repr

/-- Verb interpreter behind `sprintf`: `%s` consumes a string argument, `%d`
an integer argument; every other character of the format is copied. -/
def sprintfGo : List Char → List Arg → List Char
  | [], _ => []
  | '%' :: 's' :: r, .s v :: as => v.data ++ sprintfGo r as
  | '%' :: 'd' :: r, .d v :: as => (toString v).data ++ sprintfGo r as
  | c :: r, as => c :: sprintfGo r as

/-- The part of `fmt.Sprintf` used by main.go: formats with `%s` and `%d`
verbs whose arguments have the matching type and number. -/
def sprintf (format : String) (args : List Arg) : String :=
  String.mk (sprintfGo format.data args)

/-- The `*os.File` handle of the output file. -/
structure File where
  name : String
  deriving DecidableEq, Repr

/-- The pair `([]byte, error)` returned by `jsonpkg.MarshalIndent`. -/
structure Marshalled where
  b : String
  err : Option String
  deriving DecidableEq, Repr

/-- Modelled from the spec: the error behaviour of `jsonpkg.MarshalIndent` on
an interaction, around an arbitrary renderer `render` of the record.
Serialization fails when the timestamp cannot be encoded, which
`time.Time.MarshalJSON` reports for a year outside `[0, 9999]`; a failed call
returns no bytes. -/
def marshalIndentWith (render : Interaction → String) (i : Interaction) : Marshalled :=
  if 0 ≤ i.Timestamp.year ∧ i.Timestamp.year ≤ 9999 then
    { b := render i, err := none }
  else
    { b := "", err := some "json: error calling MarshalJSON for type time.Time: Time.MarshalJSON: year outside of range [0,9999]" }

/-! ## Flags and effects -/

/-- The command-line flags of main.go, with their defaults. -/
structure Flags where
  serverURL : String := "https://interact.sh"
  n : Int := 1
  output : String := ""
  json : Bool := false
  verbose : Bool := false
  pollInterval : Int := 5
  persistent : Bool := false
  dnsOnly : Bool := false
  httpOnly : Bool := false
  smtpOnly : Bool := false
  token : String := ""
  deriving DecidableEq, Repr

/-- One observable action of the program, in program order. -/
inductive Effect where
  /-- A call of `gologger.Print().Msgf`. -/
  | print (msg : String)
  /-- A call of `gologger.Warning().Msgf`. -/
  | warning (msg : String)
  /-- A call of `gologger.Info().Msgf`. -/
  | info (msg : String)
  /-- A call of `gologger.Error().Msgf`. -/
  | error (msg : String)
  /-- A call of `gologger.Fatal().Msgf`: reports the message and terminates the process. -/
  | fatal (msg : String)
  /-- A call of `gologger.Silent().Msgf`: a unit handed to the console. -/
  | silent (msg : String)
  /-- A call of `os.Stdout.Write`. -/
  | stdoutWrite (b : String)
  /-- A call of `os.Create`. -/
  | create (path : String)
  /-- A call of `outputFile.Write`. -/
  | fileWrite (f : File) (b : String)
  /-- A call of `outputFile.Close`. -/
  | fileClose (f : File)
  /-- A call of `client.New` with the three options main.go sets. -/
  | newClient (serverURL : String) (persistent : Bool) (token : String)
  /-- A call of `client.URL`. -/
  | clientURL
  /-- A call of `client.StartPolling` with the poll interval in nanoseconds. -/
  | startPolling (interval : Int)
  /-- A call of `client.StopPolling`. -/
  | stopPolling
  /-- A call of `client.Close`. -/
  | clientClose
  /-- A call of `os.Exit`. -/
  | exit (code : Int)
  deriving DecidableEq, Repr

/-! ## writeOutput and the polling callback -/

/-- Function `writeOutput` (main.go:140-146): the buffer and a line separator go to the
output file when there is one, then the buffer goes to the console logger. -/
def writeOutput (outputFile : Option File) (builder : String) : List Effect :=
  (match outputFile with
    | some f => [Effect.fileWrite f builder, Effect.fileWrite f "\n"]
    | none => []) ++
  [Effect.silent (sprintf "%s" [.s builder])]

/-- The callback passed to `client.StartPolling` (main.go:78-129), with
`noFilter` as computed on line 76.  `marshalIndent` stands for
`jsonpkg.MarshalIndent(interaction, "", "\t")`. -/
def pollCallback (fl : Flags) (marshalIndent : Interaction → Marshalled)
    (outputFile : Option File) (interaction : Interaction) : List Effect :=
  let noFilter := !fl.dnsOnly && !fl.httpOnly && !fl.smtpOnly
  if !fl.json then
    let builder := ""
    if interaction.Protocol = "dns" then
      if noFilter || fl.dnsOnly then
        let builder := builder ++ sprintf "[%s] Received DNS interaction (%s) from %s at %s" [.s interaction.FullId, .s interaction.QType, .s interaction.RemoteAddress, .s (interaction.Timestamp.Format "2006-01-02 15:04:05")]
        let builder := if fl.verbose then
            builder ++ sprintf "\n-----------\nDNS Request\n-----------\n\n%s\n\n------------\nDNS Response\n------------\n\n%s\n\n" [.s interaction.RawRequest, .s interaction.RawResponse]
          else builder
        writeOutput outputFile builder
      else []
    else if interaction.Protocol = "http" then
      if noFilter || fl.httpOnly then
        let builder := builder ++ sprintf "[%s] Received HTTP interaction from %s at %s" [.s interaction.FullId, .s interaction.RemoteAddress, .s (interaction.Timestamp.Format "2006-01-02 15:04:05")]
        let builder := if fl.verbose then
            builder ++ sprintf "\n------------\nHTTP Request\n------------\n\n%s\n\n-------------\nHTTP Response\n-------------\n\n%s\n\n" [.s interaction.RawRequest, .s interaction.RawResponse]
          else builder
        writeOutput outputFile builder
      else []
    else if interaction.Protocol = "smtp" then
      if noFilter || fl.smtpOnly then
        let builder := builder ++ sprintf "[%s] Received SMTP interaction from %s at %s" [.s interaction.FullId, .s interaction.RemoteAddress, .s (interaction.Timestamp.Format "2006-01-02 15:04:05")]
        let builder := if fl.verbose then
            builder ++ sprintf "\n------------\nSMTP Interaction\n------------\n\n%s\n\n" [.s interaction.RawRequest]
          else builder
        writeOutput outputFile builder
      else []
    else if interaction.Protocol = "responder" ∨ interaction.Protocol = "smb" then
      if noFilter then
        let builder := builder ++ sprintf "Received Responder/Smb interaction at %s" [.s (interaction.Timestamp.Format "2006-01-02 15:04:05")]
        let builder := if fl.verbose then
            builder ++ sprintf "\n------------\nResponder/SMB Interaction\n------------\n\n%s\n\n" [.s interaction.RawRequest]
          else builder
        writeOutput outputFile builder
      else []
    else []
  else
    let r := marshalIndent interaction
    (match r.err with
      | some err => [Effect.error (sprintf "Could not marshal json output: %s\n" [.s err])]
      | none => [Effect.stdoutWrite r.b, Effect.stdoutWrite "\n"]) ++
    (match outputFile with
      | some f => [Effect.fileWrite f r.b, Effect.fileWrite f "\n"]
      | none => [])

/-- The polling task: the callback runs once per delivered interaction, in
delivery order. -/
def poll (fl : Flags) (marshalIndent : Interaction → Marshalled)
    (outputFile : Option File) (delivered : List Interaction) : List Effect :=
  delivered.flatMap (pollCallback fl marshalIndent outputFile)

/-! ## main -/

/-- The ASCII-art banner constant. -/
def banner : String :=
  "\n    _       __                       __       __  \n   (_)___  / /____  _________ ______/ /______/ /_ \n  / / __ \\/ __/ _ \\/ ___/ __ '/ ___/ __/ ___/ __ \\\n / / / / / /_/  __/ /  / /_/ / /__/ /_(__  ) / / /\n/_/_/ /_/\\__/\\___/_/   \\__,_/\\___/\\__/____/_/ /_/ v0.0.4\n"

/-- Function `showBanner` (main.go:39-45). -/
def showBanner : List Effect :=
  [Effect.print (sprintf "%s\n" [.s banner]),
   Effect.print (sprintf "\t\tprojectdiscovery.io\n\n" []),
   Effect.warning (sprintf "Use with caution. You are responsible for your actions\n" []),
   Effect.warning (sprintf "Developers assume no liability and are not responsible for any misuse or damage.\n" [])]

/-- What the environment answers to main's calls: the outcome of `os.Create`,
the outcome of `client.New`, and the string returned by the k-th
`client.URL()`. -/
structure World where
  create : String → Except String File
  newClient : Except String Unit
  url : Nat → String

/-- The state of the main goroutine: the effects performed so far, the calls
registered with `defer` and not yet run (most recent first), and the exit
status once the process has terminated. -/
structure MainState where
  trace : List Effect
  deferred : List Effect
  exited : Option Int
  deriving DecidableEq, Repr

/-- The expression `time.Duration(*pollInterval)*time.Second`: an int64 number of
nanoseconds, wrapping on overflow. -/
def pollDuration (pollInterval : Int) : Int :=
  (pollInterval * 1000000000 + 2 ^ 63) % 2 ^ 64 - 2 ^ 63

/-- The loop `for range c` (main.go:133-137).  With no signal the main
goroutine stays blocked on the channel.  The first signal runs the body, whose
last statement `os.Exit(1)` terminates the process at once: deferred calls are
not run and no later signal is handled. -/
def interruptLoop (trace : List Effect) (deferred : List Effect) : Nat → MainState
  | 0 => { trace := trace, deferred := deferred, exited := none }
  | _ + 1 =>
    { trace := trace ++ [Effect.stopPolling, Effect.clientClose, Effect.exit 1],
      deferred := deferred, exited := some 1 }

/-- The lines of main after the output file has been set up (main.go:61-137);
`signals` is the number of interrupt signals delivered on the channel `c`. -/
def mainSession (fl : Flags) (w : World) (signals : Nat) (trace : List Effect)
    (deferred : List Effect) : MainState :=
  let trace := trace ++ [Effect.newClient fl.serverURL fl.persistent fl.token]
  match w.newClient with
  | .error err =>
    { trace := trace ++ [Effect.fatal (sprintf "Could not create client: %s\n" [.s err])],
      deferred := deferred, exited := some 1 }
  | .ok _ =>
    let trace := trace ++ [Effect.info (sprintf "Listing %d URL for OOB Testing\n" [.d fl.n])]
    let trace := trace ++ (List.range fl.n.toNat).flatMap
      (fun k => [Effect.clientURL, Effect.info (sprintf "%s\n" [.s (w.url k)])])
    let trace := trace ++ [Effect.startPolling (pollDuration fl.pollInterval)]
    interruptLoop trace deferred signals

/-- The main goroutine (main.go:47-138) after `flag.Parse()`, given the number
of interrupt signals delivered.  The effects of the polling callback belong to
the polling task and are given by `poll`. -/
def main (fl : Flags) (w : World) (signals : Nat) : MainState :=
  let trace := showBanner
  if fl.output ≠ "" then
    let trace := trace ++ [Effect.create fl.output]
    match w.create fl.output with
    | .error err =>
      { trace := trace ++ [Effect.fatal (sprintf "Could not create output file: %s\n" [.s err])],
        deferred := [], exited := some 1 }
    | .ok outputFile => mainSession fl w signals trace [Effect.fileClose outputFile]
  else mainSession fl w signals trace []

/-! ## Observations on a trace -/

/-- The units handed to the console logger, in order. -/
def silentMsgs : List Effect → List String
  | [] => []
  | Effect.silent m :: r => m :: silentMsgs r
  | _ :: r => silentMsgs r

/-- The payloads written to standard output, in order. -/
def stdoutWrites : List Effect → List String
  | [] => []
  | Effect.stdoutWrite b :: r => b :: stdoutWrites r
  | _ :: r => stdoutWrites r

/-- The payloads written to the output file, in order. -/
def fileWrites : List Effect → List String
  | [] => []
  | Effect.fileWrite _ b :: r => b :: fileWrites r
  | _ :: r => fileWrites r

/-- The messages reported through the error logger, in order. -/
def errorMsgs : List Effect → List String
  | [] => []
  | Effect.error m :: r => m :: errorMsgs r
  | _ :: r => errorMsgs r

/-! ## The spec's reading of the text renderer -/

/-- The decision table of the Interaction Router, as the spec words it. -/
def specDisplayed (fl : Flags) (i : Interaction) : Prop :=
  let noFilter := (!fl.dnsOnly && !fl.httpOnly && !fl.smtpOnly) = true
  (i.Protocol = "dns" ∧ (noFilter ∨ fl.dnsOnly = true)) ∨
  (i.Protocol = "http" ∧ (noFilter ∨ fl.httpOnly = true)) ∨
  (i.Protocol = "smtp" ∧ (noFilter ∨ fl.smtpOnly = true)) ∨
  ((i.Protocol = "responder" ∨ i.Protocol = "smb") ∧ noFilter)

instance specDisplayedDecidable (fl : Flags) (i : Interaction) :
    Decidable (specDisplayed fl i) := by
  unfold specDisplayed; exact inferInstance

/-- The timestamp as the spec shows it, `YYYY-MM-DD HH:MM:SS`. -/
def specTimestamp (t : Time) : String :=
  appendInt t.year 4 ++ "-" ++ appendInt t.month 2 ++ "-" ++ appendInt t.day 2 ++ " " ++
    appendInt t.hour 2 ++ ":" ++ appendInt t.minute 2 ++ ":" ++ appendInt t.second 2

/-- The one-line summary templates of the spec, by protocol. -/
def specSummary (i : Interaction) : String :=
  if i.Protocol = "dns" then
    "[" ++ i.FullId ++ "] Received DNS interaction (" ++ i.QType ++ ") from " ++
      i.RemoteAddress ++ " at " ++ specTimestamp i.Timestamp
  else if i.Protocol = "http" then
    "[" ++ i.FullId ++ "] Received HTTP interaction from " ++ i.RemoteAddress ++ " at " ++
      specTimestamp i.Timestamp
  else if i.Protocol = "smtp" then
    "[" ++ i.FullId ++ "] Received SMTP interaction from " ++ i.RemoteAddress ++ " at " ++
      specTimestamp i.Timestamp
  else
    "Received Responder/Smb interaction at " ++ specTimestamp i.Timestamp

/-- The delimited verbose block of the spec, by protocol. -/
def specVerboseBlock (i : Interaction) : String :=
  if i.Protocol = "dns" then
    "\n-----------\nDNS Request\n-----------\n\n" ++ i.RawRequest ++
      "\n\n------------\nDNS Response\n------------\n\n" ++ i.RawResponse ++ "\n\n"
  else if i.Protocol = "http" then
    "\n------------\nHTTP Request\n------------\n\n" ++ i.RawRequest ++
      "\n\n-------------\nHTTP Response\n-------------\n\n" ++ i.RawResponse ++ "\n\n"
  else if i.Protocol = "smtp" then
    "\n------------\nSMTP Interaction\n------------\n\n" ++ i.RawRequest ++ "\n\n"
  else
    "\n------------\nResponder/SMB Interaction\n------------\n\n" ++ i.RawRequest ++ "\n\n"

/-! ## Concrete inputs -/

/-- The DNS interaction of the spec's first scenario. -/
def sampleDns : Interaction :=
  { Protocol := "dns", FullId := "abc.oast.site", QType := "A",
    RawRequest := ";; QUESTION SECTION:\n;abc.oast.site.\tIN\t A\n",
    RawResponse := ";; ANSWER SECTION:\nabc.oast.site.\t3600\tIN\tA\t10.0.0.1\n",
    RemoteAddress := "1.2.3.4",
    Timestamp := { year := 2024, month := 1, day := 2, hour := 3, minute := 4, second := 5 } }

/-- An HTTP interaction on the same endpoint. -/
def sampleHttp : Interaction :=
  { Protocol := "http", FullId := "abc.oast.site", QType := "",
    RawRequest := "GET / HTTP/1.1\r\nHost: abc.oast.site\r\n\r\n",
    RawResponse := "HTTP/1.1 200 OK\r\n\r\n",
    RemoteAddress := "5.6.7.8",
    Timestamp := { year := 2024, month := 1, day := 2, hour := 3, minute := 4, second := 6 } }

/-- An SMB interaction, which carries no response. -/
def sampleSmb : Interaction :=
  { Protocol := "smb", FullId := "", QType := "", RawRequest := "smb probe",
    RawResponse := "", RemoteAddress := "",
    Timestamp := { year := 2024, month := 1, day := 2, hour := 3, minute := 4, second := 7 } }

/-- A DNS interaction whose timestamp lies in the year 10000, which
`time.Time.MarshalJSON` refuses to encode. -/
def sampleUnencodable : Interaction :=
  { Protocol := "dns", FullId := "abc.oast.site", QType := "A", RawRequest := "",
    RawResponse := "", RemoteAddress := "1.2.3.4",
    Timestamp := { year := 10000, month := 1, day := 1, hour := 0, minute := 0, second := 0 } }

/-- A stand-in record renderer for concrete evaluations; the theorems quantify
over every marshaller. -/
def sampleRender (i : Interaction) : String :=
  sprintf "protocol=%s full-id=%s" [.s i.Protocol, .s i.FullId]

/-- The output file handle of the concrete evaluations. -/
def sampleFile : File := { name := "out.txt" }

/-- An environment in which the output file and the session are both created. -/
def sampleWorld : World :=
  { create := fun path => .ok { name := path },
    newClient := .ok (),
    url := fun _ => "c23b2la0kl1krjcrdj10cndmnioyyyyyn.interact.sh" }

/-! ## Auxiliary lemmas -/

theorem format_stamp (t : Time) : t.Format "2006-01-02 15:04:05" = specTimestamp t := by
  apply String.ext
  simp [Time.Format, formatGo, specTimestamp]

theorem appendInt_length (x : Int) (w : Nat) (hw : 0 < w) (h0 : 0 ≤ x) (h1 : x.natAbs < 10 ^ w) :
    (appendInt x w).length = w := by
  have hlen : (Nat.toDigits 10 x.natAbs).length ≤ w :=
    Nat.toDigitsCore_length 10 (by decide) _ _ w h1 hw
  have hneg : ¬ x < 0 := by omega
  simp only [appendInt, hneg, if_false, String.length_append, String.length]
  simp
  omega

theorem specTimestamp_length (t : Time) (hy0 : 0 ≤ t.year) (hy1 : t.year ≤ 9999)
    (hmo : t.month ≤ 12) (hd : t.day ≤ 31) (hh : t.hour ≤ 23) (hmi : t.minute ≤ 59)
    (hs : t.second ≤ 59) : (specTimestamp t).length = 19 := by
  unfold specTimestamp
  simp only [String.length_append]
  rw [appendInt_length t.year 4 (by decide) hy0 (by omega),
    appendInt_length t.month 2 (by decide) (by omega) (by simp; omega),
    appendInt_length t.day 2 (by decide) (by omega) (by simp; omega),
    appendInt_length t.hour 2 (by decide) (by omega) (by simp; omega),
    appendInt_length t.minute 2 (by decide) (by omega) (by simp; omega),
    appendInt_length t.second 2 (by decide) (by omega) (by simp; omega)]
  rfl

theorem sprintf_s (a : String) : sprintf "%s" [.s a] = a := by
  apply String.ext
  simp [sprintf, sprintfGo]

theorem sprintf_dns (a b c d : String) :
    sprintf "[%s] Received DNS interaction (%s) from %s at %s" [.s a, .s b, .s c, .s d] =
      "[" ++ a ++ "] Received DNS interaction (" ++ b ++ ") from " ++ c ++ " at " ++ d := by
  apply String.ext
  simp [sprintf, sprintfGo]

theorem sprintf_http (a c d : String) :
    sprintf "[%s] Received HTTP interaction from %s at %s" [.s a, .s c, .s d] =
      "[" ++ a ++ "] Received HTTP interaction from " ++ c ++ " at " ++ d := by
  apply String.ext
  simp [sprintf, sprintfGo]

theorem sprintf_smtp (a c d : String) :
    sprintf "[%s] Received SMTP interaction from %s at %s" [.s a, .s c, .s d] =
      "[" ++ a ++ "] Received SMTP interaction from " ++ c ++ " at " ++ d := by
  apply String.ext
  simp [sprintf, sprintfGo]

theorem sprintf_responder (d : String) :
    sprintf "Received Responder/Smb interaction at %s" [.s d] =
      "Received Responder/Smb interaction at " ++ d := by
  apply String.ext
  simp [sprintf, sprintfGo]

theorem sprintf_dns_block (q r : String) :
    sprintf "\n-----------\nDNS Request\n-----------\n\n%s\n\n------------\nDNS Response\n------------\n\n%s\n\n" [.s q, .s r] =
      "\n-----------\nDNS Request\n-----------\n\n" ++ q ++
        "\n\n------------\nDNS Response\n------------\n\n" ++ r ++ "\n\n" := by
  apply String.ext
  simp [sprintf, sprintfGo]

theorem sprintf_http_block (q r : String) :
    sprintf "\n------------\nHTTP Request\n------------\n\n%s\n\n-------------\nHTTP Response\n-------------\n\n%s\n\n" [.s q, .s r] =
      "\n------------\nHTTP Request\n------------\n\n" ++ q ++
        "\n\n-------------\nHTTP Response\n-------------\n\n" ++ r ++ "\n\n" := by
  apply String.ext
  simp [sprintf, sprintfGo]

theorem sprintf_smtp_block (q : String) :
    sprintf "\n------------\nSMTP Interaction\n------------\n\n%s\n\n" [.s q] =
      "\n------------\nSMTP Interaction\n------------\n\n" ++ q ++ "\n\n" := by
  apply String.ext
  simp [sprintf, sprintfGo]

theorem sprintf_responder_block (q : String) :
    sprintf "\n------------\nResponder/SMB Interaction\n------------\n\n%s\n\n" [.s q] =
      "\n------------\nResponder/SMB Interaction\n------------\n\n" ++ q ++ "\n\n" := by
  apply String.ext
  simp [sprintf, sprintfGo]

theorem empty_append (s : String) : "" ++ s = s := by
  apply String.ext
  simp

theorem append_empty (s : String) : s ++ "" = s := by
  apply String.ext
  simp

theorem pollCallback_text (fl : Flags) (m : Interaction → Marshalled) (f : Option File)
    (i : Interaction) (hj : fl.json = false) :
    pollCallback fl m f i =
      if specDisplayed fl i then
        writeOutput f (specSummary i ++ (if fl.verbose = true then specVerboseBlock i else ""))
      else [] := by
  obtain ⟨_, _, _, js, vb, _, _, dn, ht, sm, _⟩ := fl
  simp only at hj
  subst hj
  unfold pollCallback specDisplayed specSummary specVerboseBlock
  simp only [sprintf_dns, sprintf_http, sprintf_smtp, sprintf_responder, sprintf_dns_block,
    sprintf_http_block, sprintf_smtp_block, sprintf_responder_block, format_stamp, empty_append]
  by_cases h1 : i.Protocol = "dns"
  · cases dn <;> cases ht <;> cases sm <;> cases vb <;> simp [h1, append_empty]
  · by_cases h2 : i.Protocol = "http"
    · cases dn <;> cases ht <;> cases sm <;> cases vb <;> simp [h2, append_empty]
    · by_cases h3 : i.Protocol = "smtp"
      · cases dn <;> cases ht <;> cases sm <;> cases vb <;> simp [h3, append_empty]
      · by_cases h4 : i.Protocol = "responder" ∨ i.Protocol = "smb"
        · cases dn <;> cases ht <;> cases sm <;> cases vb <;>
            simp [h1, h2, h3, h4, append_empty]
        · simp [h1, h2, h3, h4]


theorem pollCallback_json (fl : Flags) (m : Interaction → Marshalled) (f : Option File)
    (i : Interaction) (hj : fl.json = true) :
    pollCallback fl m f i =
      (match (m i).err with
        | some err => [Effect.error (sprintf "Could not marshal json output: %s\n" [.s err])]
        | none => [Effect.stdoutWrite (m i).b, Effect.stdoutWrite "\n"]) ++
      (match f with
        | some h => [Effect.fileWrite h (m i).b, Effect.fileWrite h "\n"]
        | none => []) := by
  simp [pollCallback, hj]

theorem silentMsgs_append (a b : List Effect) :
    silentMsgs (a ++ b) = silentMsgs a ++ silentMsgs b := by
  induction a with
  | nil => rfl
  | cons e r ih => cases e <;> simp [silentMsgs, ih]

theorem stdoutWrites_append (a b : List Effect) :
    stdoutWrites (a ++ b) = stdoutWrites a ++ stdoutWrites b := by
  induction a with
  | nil => rfl
  | cons e r ih => cases e <;> simp [stdoutWrites, ih]

theorem fileWrites_append (a b : List Effect) :
    fileWrites (a ++ b) = fileWrites a ++ fileWrites b := by
  induction a with
  | nil => rfl
  | cons e r ih => cases e <;> simp [fileWrites, ih]

theorem silentMsgs_writeOutput (f : Option File) (u : String) :
    silentMsgs (writeOutput f u) = [u] := by
  cases f <;> simp [writeOutput, sprintf_s, silentMsgs]

theorem stdoutWrites_writeOutput (f : Option File) (u : String) :
    stdoutWrites (writeOutput f u) = [] := by
  cases f <;> simp [writeOutput, sprintf_s, stdoutWrites]

theorem fileWrites_writeOutput_some (h : File) (u : String) :
    fileWrites (writeOutput (some h) u) = [u, "\n"] := by
  simp [writeOutput, sprintf_s, fileWrites]

theorem fileWrites_writeOutput_none (u : String) :
    fileWrites (writeOutput none u) = [] := by
  simp [writeOutput, sprintf_s, fileWrites]

theorem writeOutput_ne_nil (f : Option File) (u : String) : writeOutput f u ≠ [] := by
  cases f <;> simp [writeOutput]

theorem poll_cons (fl : Flags) (m : Interaction → Marshalled) (f : Option File)
    (i : Interaction) (is : List Interaction) :
    poll fl m f (i :: is) = pollCallback fl m f i ++ poll fl m f is := by
  simp [poll]

/-! ## The claims -/

/-- C1: in text mode the callback emits exactly one unit when the decision
table of the Interaction Router selects the interaction, and performs no
effect otherwise; a protocol outside the five known ones is never displayed,
and with no filter flag set each of the five known ones is. -/
theorem C1_text_router (fl : Flags) (m : Interaction → Marshalled) (f : Option File)
    (i : Interaction) (hj : fl.json = false) :
    (specDisplayed fl i →
      ∃ u, pollCallback fl m f i = writeOutput f u ∧
        silentMsgs (pollCallback fl m f i) = [u] ∧
        stdoutWrites (pollCallback fl m f i) = []) ∧
    (¬ specDisplayed fl i → pollCallback fl m f i = []) ∧
    (i.Protocol ∉ ["dns", "http", "smtp", "responder", "smb"] →
      pollCallback fl m f i = []) ∧
    ((!fl.dnsOnly && !fl.httpOnly && !fl.smtpOnly) = true →
      i.Protocol ∈ ["dns", "http", "smtp", "responder", "smb"] →
      (silentMsgs (pollCallback fl m f i)).length = 1) := by
  rw [pollCallback_text fl m f i hj]
  refine ⟨?_, ?_, ?_, ?_⟩
  · intro hd
    rw [if_pos hd]
    exact ⟨_, rfl, silentMsgs_writeOutput _ _, stdoutWrites_writeOutput _ _⟩
  · intro hd
    rw [if_neg hd]
  · intro hp
    have hd : ¬ specDisplayed fl i := by
      simp only [List.mem_cons, List.mem_singleton, List.not_mem_nil, or_false, not_or] at hp
      unfold specDisplayed
      simp [hp.1, hp.2.1, hp.2.2.1, hp.2.2.2.1, hp.2.2.2.2]
    rw [if_neg hd]
  · intro hn hp
    have hd : specDisplayed fl i := by
      simp only [List.mem_cons, List.mem_singleton, List.not_mem_nil, or_false] at hp
      unfold specDisplayed
      simp only [hn, true_or, and_true, true_and]
      rcases hp with h | h | h | h | h <;> simp [h]
    rw [if_pos hd, silentMsgs_writeOutput]
    rfl

/-- Witness for C1: the DNS interaction of the first scenario under the
default flags. -/
theorem C1_text_router_witness :
    ({} : Flags).json = false ∧
      (silentMsgs (pollCallback {} (marshalIndentWith sampleRender) none sampleDns)).length = 1 :=
  ⟨rfl, (C1_text_router {} (marshalIndentWith sampleRender) none sampleDns rfl).2.2.2
    (by decide) (by decide)⟩


/-- C2: in structured mode, when serialization succeeds, the callback writes
exactly one record to the console (the serialized interaction, then the line
separator), whatever the protocol; the whole trace is the same under any other
setting of the flags that keeps structured mode. -/
theorem C2_json_emits_record (fl fl2 : Flags) (m : Interaction → Marshalled)
    (f : Option File) (i : Interaction) (hj : fl.json = true) (hj2 : fl2.json = true)
    (hok : (m i).err = none) :
    stdoutWrites (pollCallback fl m f i) = [(m i).b, "\n"] ∧
    silentMsgs (pollCallback fl m f i) = [] ∧
    errorMsgs (pollCallback fl m f i) = [] ∧
    pollCallback fl2 m f i = pollCallback fl m f i := by
  rw [pollCallback_json fl m f i hj, pollCallback_json fl2 m f i hj2, hok]
  cases f <;> simp [stdoutWrites, silentMsgs, errorMsgs]

/-- Witness for C2: with `dnsOnly` and `json` set, an HTTP interaction is
still written to the console as one record. -/
theorem C2_json_emits_record_witness :
    stdoutWrites (pollCallback { json := true, dnsOnly := true }
        (marshalIndentWith sampleRender) none sampleHttp) =
      ["protocol=http full-id=abc.oast.site", "\n"] :=
  (C2_json_emits_record { json := true, dnsOnly := true } { json := true }
    (marshalIndentWith sampleRender) none sampleHttp rfl rfl (by decide)).1

/-- C3 (evaluation at the failing input): in structured mode with an output
file, an interaction whose serialization fails makes the callback report the
error, write nothing to the console, and still perform the two file writes:
the empty payload and a line separator. -/
theorem C3_failed_marshal_reaches_file :
    pollCallback { json := true, output := "out.txt" } (marshalIndentWith sampleRender)
        (some sampleFile) sampleUnencodable =
      [Effect.error "Could not marshal json output: json: error calling MarshalJSON for type time.Time: Time.MarshalJSON: year outside of range [0,9999]\n",
       Effect.fileWrite sampleFile "",
       Effect.fileWrite sampleFile "\n"] ∧
    fileWrites (pollCallback { json := true, output := "out.txt" }
        (marshalIndentWith sampleRender) (some sampleFile) sampleUnencodable) = ["", "\n"] := by
  decide

/-- C7: in structured mode the callback performs the same effects, on the
console and on the output file, with `verbose` set and with it unset. -/
theorem C7_json_ignores_verbose (fl : Flags) (m : Interaction → Marshalled)
    (f : Option File) (i : Interaction) (hj : fl.json = true) :
    pollCallback { fl with verbose := true } m f i =
      pollCallback { fl with verbose := false } m f i := by
  rw [pollCallback_json _ m f i (by simpa using hj), pollCallback_json _ m f i (by simpa using hj)]

/-- Witness for C7: the HTTP interaction with an output file configured. -/
theorem C7_json_ignores_verbose_witness :
    pollCallback { json := true, verbose := true } (marshalIndentWith sampleRender)
        (some sampleFile) sampleHttp =
      pollCallback { json := true, verbose := false } (marshalIndentWith sampleRender)
        (some sampleFile) sampleHttp :=
  C7_json_ignores_verbose { json := true } (marshalIndentWith sampleRender)
    (some sampleFile) sampleHttp rfl


theorem mainSession_trace (fl : Flags) (w : World) (signals : Nat) (trace deferred : List Effect) :
    ∃ tail, (mainSession fl w signals trace deferred).trace = trace ++ tail ∧
      ∀ h, Effect.fileClose h ∉ tail := by
  unfold mainSession
  cases hc : w.newClient with
  | error err => exact ⟨_, by simp only [List.append_assoc]; rfl, by simp⟩
  | ok _ =>
    cases signals with
    | zero =>
      refine ⟨_, by simp only [interruptLoop, List.append_assoc]; rfl, ?_⟩
      simp
    | succ k =>
      refine ⟨_, by simp only [interruptLoop, List.append_assoc]; rfl, ?_⟩
      simp

/-- C4 (evaluation at the failing input): the main goroutine never closes the
output file.  With an output file configured and one interrupt delivered, the
trace ends with stop-polling, session close and exit, and the deferred
`outputFile.Close()` is still pending when the process has exited. -/
theorem C4_output_file_never_closed :
    (∀ (fl : Flags) (w : World) (signals : Nat) (h : File),
      Effect.fileClose h ∉ (main fl w signals).trace) ∧
    main { output := "out.txt" } sampleWorld 1 =
      { trace := showBanner ++
          [Effect.create "out.txt",
           Effect.newClient "https://interact.sh" false "",
           Effect.info "Listing 1 URL for OOB Testing\n",
           Effect.clientURL,
           Effect.info "c23b2la0kl1krjcrdj10cndmnioyyyyyn.interact.sh\n",
           Effect.startPolling 5000000000,
           Effect.stopPolling, Effect.clientClose, Effect.exit 1],
        deferred := [Effect.fileClose sampleFile],
        exited := some 1 } := by
  refine ⟨?_, by rfl⟩
  intro fl w signals h
  unfold main
  by_cases ho : fl.output = ""
  · simp only [ho, ne_eq, not_true_eq_false, if_false]
    obtain ⟨tail, ht, hn⟩ := mainSession_trace fl w signals showBanner []
    rw [ht]
    simp [showBanner, hn h]
  · simp only [ne_eq, ho, not_false_eq_true, if_true]
    cases hc : w.create fl.output with
    | error err => simp [showBanner]
    | ok outputFile =>
      obtain ⟨tail, ht, hn⟩ := mainSession_trace fl w signals
        (showBanner ++ [Effect.create fl.output]) [Effect.fileClose outputFile]
      simp only [ht]
      simp [showBanner, hn h]


theorem mainSession_interrupt (fl : Flags) (w : World) (k : Nat) (trace deferred : List Effect)
    (hrun : (mainSession fl w 0 trace deferred).exited = none) :
    (mainSession fl w (k + 1) trace deferred).trace =
        (mainSession fl w 0 trace deferred).trace ++
          [Effect.stopPolling, Effect.clientClose, Effect.exit 1] ∧
      (mainSession fl w (k + 1) trace deferred).exited = some 1 ∧
      (mainSession fl w (k + 1) trace deferred).deferred = deferred := by
  unfold mainSession at hrun ⊢
  cases hc : w.newClient with
  | error err => simp [hc] at hrun
  | ok _ => simp [interruptLoop]

theorem mainSession_quiet (fl : Flags) (w : World) (trace deferred : List Effect) :
    ∃ tail, (mainSession fl w 0 trace deferred).trace = trace ++ tail ∧
      Effect.stopPolling ∉ tail ∧ Effect.clientClose ∉ tail ∧ ∀ c, Effect.exit c ∉ tail := by
  unfold mainSession
  cases hc : w.newClient with
  | error err => exact ⟨_, by simp only [List.append_assoc]; rfl, by simp⟩
  | ok _ =>
    refine ⟨_, by simp only [interruptLoop, List.append_assoc]; rfl, ?_⟩
    simp

/-- C10: once the program is running (startup succeeded and the main goroutine
waits on the signal channel), the first interrupt appends exactly stop-polling,
session close and exit with status 1 to the trace of the main goroutine, in
that order; before it no stop-polling, session close or exit has happened, and
the trace ends at the exit however many further signals arrive. -/
theorem C10_interrupt_sequence (fl : Flags) (w : World) (k : Nat)
    (hrun : (main fl w 0).exited = none) :
    (main fl w (k + 1)).trace =
        (main fl w 0).trace ++ [Effect.stopPolling, Effect.clientClose, Effect.exit 1] ∧
      (main fl w (k + 1)).exited = some 1 ∧
      Effect.stopPolling ∉ (main fl w 0).trace ∧
      Effect.clientClose ∉ (main fl w 0).trace ∧
      ∀ c, Effect.exit c ∉ (main fl w 0).trace := by
  unfold main at hrun ⊢
  by_cases ho : fl.output = ""
  · simp only [ho, ne_eq, not_true_eq_false, if_false] at hrun ⊢
    obtain ⟨h1, h2, _⟩ := mainSession_interrupt fl w k showBanner [] hrun
    obtain ⟨tail, ht, q1, q2, q3⟩ := mainSession_quiet fl w showBanner []
    refine ⟨h1, h2, ?_, ?_, ?_⟩
    · rw [ht]; simp [showBanner, q1]
    · rw [ht]; simp [showBanner, q2]
    · intro c; rw [ht]; simp [showBanner, q3 c]
  · simp only [ne_eq, ho, not_false_eq_true, if_true] at hrun ⊢
    cases hc : w.create fl.output with
    | error err => simp [hc] at hrun
    | ok outputFile =>
      simp only [hc] at hrun ⊢
      obtain ⟨h1, h2, _⟩ := mainSession_interrupt fl w k
        (showBanner ++ [Effect.create fl.output]) [Effect.fileClose outputFile] hrun
      obtain ⟨tail, ht, q1, q2, q3⟩ := mainSession_quiet fl w
        (showBanner ++ [Effect.create fl.output]) [Effect.fileClose outputFile]
      refine ⟨h1, h2, ?_, ?_, ?_⟩
      · rw [ht]; simp [showBanner, q1]
      · rw [ht]; simp [showBanner, q2]
      · intro c; rw [ht]; simp [showBanner, q3 c]

/-- Witness for C10: the default flags, a reachable service, and two
interrupts: the second one adds nothing. -/
theorem C10_interrupt_sequence_witness :
    (main {} sampleWorld 0).exited = none ∧
      (main {} sampleWorld 2).trace =
        (main {} sampleWorld 0).trace ++
          [Effect.stopPolling, Effect.clientClose, Effect.exit 1] :=
  ⟨rfl, (C10_interrupt_sequence {} sampleWorld 1 rfl).1⟩


/-- C5: in text mode without `verbose`, a displayed interaction is emitted as
the one-line summary of its protocol and nothing more; for responder and smb
the line does not depend on FullId, QType or RemoteAddress.  The timestamp in
the line is the `Format` of the layout `2006-01-02 15:04:05`, which for a
calendar date of a year from 0 to 9999 has the fixed width of 19 characters. -/
theorem C5_text_summary (fl : Flags) (m : Interaction → Marshalled) (f : Option File)
    (i : Interaction) (hj : fl.json = false) (hv : fl.verbose = false)
    (hd : specDisplayed fl i) :
    pollCallback fl m f i = writeOutput f (specSummary i) ∧
    silentMsgs (pollCallback fl m f i) = [specSummary i] ∧
    (i.Protocol = "responder" ∨ i.Protocol = "smb" →
      ∀ a q r, pollCallback fl m f { i with FullId := a, QType := q, RemoteAddress := r } =
        pollCallback fl m f i) ∧
    i.Timestamp.Format "2006-01-02 15:04:05" = specTimestamp i.Timestamp ∧
    (0 ≤ i.Timestamp.year → i.Timestamp.year ≤ 9999 → i.Timestamp.month ≤ 12 →
      i.Timestamp.day ≤ 31 → i.Timestamp.hour ≤ 23 → i.Timestamp.minute ≤ 59 →
      i.Timestamp.second ≤ 59 → (specTimestamp i.Timestamp).length = 19) := by
  have h1 : pollCallback fl m f i = writeOutput f (specSummary i) := by
    rw [pollCallback_text fl m f i hj, if_pos hd]
    simp [hv, append_empty]
  refine ⟨h1, by rw [h1, silentMsgs_writeOutput], ?_, format_stamp _,
    specTimestamp_length _⟩
  intro hp a q r
  rw [pollCallback_text fl m f i hj, pollCallback_text fl m f _ hj]
  have hs : specDisplayed fl { i with FullId := a, QType := q, RemoteAddress := r } :=
    hd
  rw [if_pos hd, if_pos hs]
  rcases hp with hp | hp <;> simp [hv, specSummary, hp]

/-- Witness for C5: the first scenario of the spec, with its exact line. -/
theorem C5_text_summary_witness :
    pollCallback {} (marshalIndentWith sampleRender) none sampleDns =
      [Effect.silent "[abc.oast.site] Received DNS interaction (A) from 1.2.3.4 at 2024-01-02 03:04:05"] :=
  (C5_text_summary {} (marshalIndentWith sampleRender) none sampleDns rfl rfl
    (by decide)).1.trans (by decide)

/-- C6: in text mode the unit emitted with `verbose` set is the one-line
summary followed by the protocol's delimited block, which starts with a line
separator; `verbose` does not change whether anything is emitted; for smtp,
responder and smb the output does not depend on RawResponse. -/
theorem C6_verbose_block (fl : Flags) (m : Interaction → Marshalled) (f : Option File)
    (i : Interaction) (hj : fl.json = false) :
    (specDisplayed fl i →
      pollCallback { fl with verbose := false } m f i = writeOutput f (specSummary i) ∧
      pollCallback { fl with verbose := true } m f i =
        writeOutput f (specSummary i ++ specVerboseBlock i)) ∧
    silentMsgs (pollCallback { fl with verbose := true } m f i) =
      (silentMsgs (pollCallback { fl with verbose := false } m f i)).map
        (fun u => u ++ specVerboseBlock i) ∧
    (pollCallback { fl with verbose := true } m f i = [] ↔
      pollCallback { fl with verbose := false } m f i = []) ∧
    (∃ rest, specVerboseBlock i = "\n" ++ rest) ∧
    (i.Protocol = "smtp" ∨ i.Protocol = "responder" ∨ i.Protocol = "smb" →
      ∀ r, pollCallback fl m f { i with RawResponse := r } = pollCallback fl m f i) := by
  have hq : pollCallback { fl with verbose := false } m f i =
      if specDisplayed fl i then writeOutput f (specSummary i) else [] := by
    rw [pollCallback_text _ m f i (by simpa using hj)]
    have : specDisplayed { fl with verbose := false } i = specDisplayed fl i := rfl
    simp [this, append_empty]
  have hl : pollCallback { fl with verbose := true } m f i =
      if specDisplayed fl i then writeOutput f (specSummary i ++ specVerboseBlock i)
      else [] := by
    rw [pollCallback_text _ m f i (by simpa using hj)]
    have : specDisplayed { fl with verbose := true } i = specDisplayed fl i := rfl
    simp [this]
  refine ⟨?_, ?_, ?_, ?_, ?_⟩
  · intro hd
    rw [hq, hl, if_pos hd, if_pos hd]
    exact ⟨rfl, rfl⟩
  · rw [hq, hl]
    by_cases hd : specDisplayed fl i
    · simp [hd, silentMsgs_writeOutput]
    · simp [hd, silentMsgs]
  · rw [hq, hl]
    by_cases hd : specDisplayed fl i
    · simp [hd, writeOutput_ne_nil]
    · simp [hd]
  · unfold specVerboseBlock
    split
    · exact ⟨_, by simp only [String.append_assoc]; rfl⟩
    · split
      · exact ⟨_, by simp only [String.append_assoc]; rfl⟩
      · split
        · exact ⟨_, by simp only [String.append_assoc]; rfl⟩
        · exact ⟨_, by simp only [String.append_assoc]; rfl⟩
  · intro hp r
    rw [pollCallback_text fl m f i hj, pollCallback_text fl m f _ hj]
    by_cases hd : specDisplayed fl i
    · have hs : specDisplayed fl { i with RawResponse := r } := hd
      rw [if_pos hd, if_pos hs]
      rcases hp with hp | hp | hp <;> simp [specSummary, specVerboseBlock, hp]
    · have hs : ¬ specDisplayed fl { i with RawResponse := r } := hd
      rw [if_neg hd, if_neg hs]

set_option maxRecDepth 8000 in
/-- Witness for C6: the second scenario of the spec, the DNS interaction with
`verbose` set. -/
theorem C6_verbose_block_witness :
    pollCallback { verbose := true } (marshalIndentWith sampleRender) none sampleDns =
      [Effect.silent ("[abc.oast.site] Received DNS interaction (A) from 1.2.3.4 at 2024-01-02 03:04:05" ++
        "\n-----------\nDNS Request\n-----------\n\n" ++
        ";; QUESTION SECTION:\n;abc.oast.site.\tIN\t A\n" ++
        "\n\n------------\nDNS Response\n------------\n\n" ++
        ";; ANSWER SECTION:\nabc.oast.site.\t3600\tIN\tA\t10.0.0.1\n" ++ "\n\n")] :=
  ((C6_verbose_block {} (marshalIndentWith sampleRender) none sampleDns rfl).1
    (by decide)).2.trans rfl


theorem pollCallback_file_text (fl : Flags) (m : Interaction → Marshalled) (h : File)
    (i : Interaction) (hj : fl.json = false) :
    fileWrites (pollCallback fl m (some h) i) =
        (silentMsgs (pollCallback fl m (some h) i)).flatMap (fun u => [u, "\n"]) ∧
      stdoutWrites (pollCallback fl m (some h) i) = [] := by
  rw [pollCallback_text fl m (some h) i hj]
  by_cases hd : specDisplayed fl i
  · simp [hd, fileWrites_writeOutput_some, silentMsgs_writeOutput, stdoutWrites_writeOutput]
  · simp [hd, fileWrites, silentMsgs, stdoutWrites]

theorem pollCallback_file_json (fl : Flags) (m : Interaction → Marshalled) (h : File)
    (i : Interaction) (hj : fl.json = true) :
    (stdoutWrites (pollCallback fl m (some h) i) = [] ∨
      stdoutWrites (pollCallback fl m (some h) i) = [(m i).b, "\n"]) ∧
    fileWrites (pollCallback fl m (some h) i) = [(m i).b, "\n"] ∧
    silentMsgs (pollCallback fl m (some h) i) = [] := by
  rw [pollCallback_json fl m (some h) i hj]
  cases (m i).err <;> simp [stdoutWrites, fileWrites, silentMsgs]

theorem pollCallback_no_file (fl : Flags) (m : Interaction → Marshalled) (h : File)
    (i : Interaction) :
    fileWrites (pollCallback fl m none i) = [] ∧
      silentMsgs (pollCallback fl m none i) = silentMsgs (pollCallback fl m (some h) i) ∧
      stdoutWrites (pollCallback fl m none i) = stdoutWrites (pollCallback fl m (some h) i) := by
  cases hj : fl.json
  · rw [pollCallback_text fl m none i hj, pollCallback_text fl m (some h) i hj]
    by_cases hd : specDisplayed fl i
    · simp [hd, fileWrites_writeOutput_none, silentMsgs_writeOutput, stdoutWrites_writeOutput]
    · simp [hd, fileWrites]
  · rw [pollCallback_json fl m none i hj, pollCallback_json fl m (some h) i hj]
    cases (m i).err <;> simp [stdoutWrites, fileWrites, silentMsgs]

/-- C8: with an output file, every unit that reaches the console is also
written to the file, followed by exactly one line separator, in the same
order: in text mode the file writes are the console units each followed by a
separator; in structured mode the console writes of each callback (the record,
then the separator) are the writes made to the file.  Without an output file
the console receives the same units and nothing is written to a file. -/
theorem C8_file_mirrors_console (fl : Flags) (m : Interaction → Marshalled) (h : File)
    (delivered : List Interaction) :
    (fl.json = false →
      fileWrites (poll fl m (some h) delivered) =
        (silentMsgs (poll fl m (some h) delivered)).flatMap (fun u => [u, "\n"])) ∧
    (fl.json = true → ∀ i,
      stdoutWrites (pollCallback fl m (some h) i) = [] ∨
        (stdoutWrites (pollCallback fl m (some h) i) = [(m i).b, "\n"] ∧
          fileWrites (pollCallback fl m (some h) i) = [(m i).b, "\n"])) ∧
    (fl.json = true →
      List.Sublist (stdoutWrites (poll fl m (some h) delivered))
        (fileWrites (poll fl m (some h) delivered))) ∧
    fileWrites (poll fl m none delivered) = [] ∧
    silentMsgs (poll fl m none delivered) = silentMsgs (poll fl m (some h) delivered) ∧
    stdoutWrites (poll fl m none delivered) = stdoutWrites (poll fl m (some h) delivered) := by
  refine ⟨?_, ?_, ?_, ?_, ?_, ?_⟩
  · intro hj
    induction delivered with
    | nil => rfl
    | cons i is ih =>
      rw [poll_cons, fileWrites_append, silentMsgs_append, List.flatMap_append, ih,
        (pollCallback_file_text fl m h i hj).1]
  · intro hj i
    obtain ⟨h1, h2, _⟩ := pollCallback_file_json fl m h i hj
    rcases h1 with h1 | h1
    · exact Or.inl h1
    · exact Or.inr ⟨h1, h2⟩
  · intro hj
    induction delivered with
    | nil => exact List.Sublist.refl _
    | cons i is ih =>
      rw [poll_cons, fileWrites_append, stdoutWrites_append]
      obtain ⟨h1, h2, _⟩ := pollCallback_file_json fl m h i hj
      refine List.Sublist.append ?_ ih
      rcases h1 with h1 | h1
      · rw [h1]; exact List.nil_sublist _
      · rw [h1, h2]
  · induction delivered with
    | nil => rfl
    | cons i is ih => rw [poll_cons, fileWrites_append, ih, (pollCallback_no_file fl m h i).1]; rfl
  · induction delivered with
    | nil => rfl
    | cons i is ih =>
      rw [poll_cons, poll_cons, silentMsgs_append, silentMsgs_append, ih,
        (pollCallback_no_file fl m h i).2.1]
  · induction delivered with
    | nil => rfl
    | cons i is ih =>
      rw [poll_cons, poll_cons, stdoutWrites_append, stdoutWrites_append, ih,
        (pollCallback_no_file fl m h i).2.2]

/-- Witness for C8: two interactions delivered in text mode with an output
file: the file receives each console line followed by one separator. -/
theorem C8_file_mirrors_console_witness :
    fileWrites (poll {} (marshalIndentWith sampleRender) (some sampleFile)
        [sampleDns, sampleHttp]) =
      ["[abc.oast.site] Received DNS interaction (A) from 1.2.3.4 at 2024-01-02 03:04:05", "\n",
       "[abc.oast.site] Received HTTP interaction from 5.6.7.8 at 2024-01-02 03:04:06", "\n"] :=
  ((C8_file_mirrors_console {} (marshalIndentWith sampleRender) sampleFile
    [sampleDns, sampleHttp]).1 rfl).trans (by decide)

/-- C9: in text mode with exactly one of the three protocol flags set, the
callback emits something if and only if the interaction has the selected
protocol, so a delivery sequence yields the output of its subsequence of that
protocol; responder and smb interactions are among the suppressed ones. -/
theorem C9_single_filter (fl : Flags) (m : Interaction → Marshalled) (f : Option File)
    (i : Interaction) (delivered : List Interaction) (hj : fl.json = false) :
    (fl.dnsOnly = true → fl.httpOnly = false → fl.smtpOnly = false →
      (pollCallback fl m f i ≠ [] ↔ i.Protocol = "dns") ∧
      poll fl m f delivered = poll fl m f (delivered.filter (fun x => x.Protocol = "dns"))) ∧
    (fl.dnsOnly = false → fl.httpOnly = true → fl.smtpOnly = false →
      (pollCallback fl m f i ≠ [] ↔ i.Protocol = "http") ∧
      poll fl m f delivered = poll fl m f (delivered.filter (fun x => x.Protocol = "http"))) ∧
    (fl.dnsOnly = false → fl.httpOnly = false → fl.smtpOnly = true →
      (pollCallback fl m f i ≠ [] ↔ i.Protocol = "smtp") ∧
      poll fl m f delivered = poll fl m f (delivered.filter (fun x => x.Protocol = "smtp"))) := by
  have key : ∀ (p : String), (∀ x, specDisplayed fl x ↔ x.Protocol = p) →
      (pollCallback fl m f i ≠ [] ↔ i.Protocol = p) ∧
      poll fl m f delivered = poll fl m f (delivered.filter (fun x => x.Protocol = p)) := by
    intro p hp
    have hcb : ∀ x, (pollCallback fl m f x ≠ [] ↔ x.Protocol = p) := by
      intro x
      rw [pollCallback_text fl m f x hj, ← hp x]
      by_cases hd : specDisplayed fl x
      · simp [hd, writeOutput_ne_nil]
      · simp [hd]
    refine ⟨hcb i, ?_⟩
    induction delivered with
    | nil => rfl
    | cons x xs ih =>
      by_cases hx : x.Protocol = p
      · rw [List.filter_cons_of_pos (by simpa using hx), poll_cons, poll_cons, ih]
      · rw [List.filter_cons_of_neg (by simpa using hx), poll_cons, ih]
        have : pollCallback fl m f x = [] := by
          by_contra hne
          exact hx ((hcb x).1 hne)
        rw [this]; rfl
  refine ⟨?_, ?_, ?_⟩
  · intro hd hh hs
    apply key
    intro x
    unfold specDisplayed
    simp only [hd, hh, hs]
    by_cases h1 : x.Protocol = "dns" <;> simp [h1]
  · intro hd hh hs
    apply key
    intro x
    unfold specDisplayed
    simp only [hd, hh, hs]
    by_cases h1 : x.Protocol = "http" <;> simp [h1]
  · intro hd hh hs
    apply key
    intro x
    unfold specDisplayed
    simp only [hd, hh, hs]
    by_cases h1 : x.Protocol = "smtp" <;> simp [h1]

/-- Witness for C9: the fifth scenario of the spec: with `httpOnly`, a DNS
interaction followed by an HTTP one yields only the HTTP line. -/
theorem C9_single_filter_witness :
    poll { httpOnly := true } (marshalIndentWith sampleRender) none [sampleDns, sampleHttp] =
      [Effect.silent "[abc.oast.site] Received HTTP interaction from 5.6.7.8 at 2024-01-02 03:04:06"] :=
  ((C9_single_filter { httpOnly := true } (marshalIndentWith sampleRender) none sampleSmb
    [sampleDns, sampleHttp] rfl).2.1 rfl rfl rfl).2.trans (by decide)

end Interactsh
